import Mathlib

/-!
Verification of the Droplet reconciliation core
(`pkg/controller/compute/droplet.go` of provider-digitalocean).

The Go source is shallowly embedded below: the managed record, the provider
RPC boundary and the four lifecycle operations (Observe, Create, Update,
Delete) become pure Lean functions; the provider API and the declarative
store are oracles passed in as function arguments; Go `(value, error)`
pairs become values paired with `Option String` errors.
-/

namespace ProviderDO

set_option maxRecDepth 8192

/-! ### Decimal rendering and parsing, modelling Go `strconv.Itoa` / `strconv.Atoi` -/

/-- The ASCII digit character for `n < 10`, as written by `strconv.Itoa`. -/
def digitChar (n : Nat) : Char := Char.ofNat (48 + n)

/-- Decimal digit list of a natural number, most significant first,
as produced by `strconv.Itoa` for a non-negative value. -/
def toDigits (n : Nat) : List Char :=
  if _h : n < 10 then [digitChar n]
  else toDigits (n / 10) ++ [digitChar (n % 10)]
termination_by n
decreasing_by exact Nat.div_lt_self (by omega) (by omega)

/-- Value of an ASCII digit character, `none` when the character is not a
digit — the per-character check of `strconv.Atoi`. -/
def digitVal (c : Char) : Option Nat :=
  if 48 ≤ c.toNat ∧ c.toNat ≤ 57 then some (c.toNat - 48) else none

/-- Accumulating digit parse of `strconv.Atoi` over the digit characters. -/
def parseDigitsAux : Nat → List Char → Option Nat
  | acc, [] => some acc
  | acc, c :: cs => (digitVal c).bind (fun d => parseDigitsAux (10 * acc + d) cs)

/-- Parse a non-empty all-digit character list; `strconv.Atoi` rejects an
empty digit sequence. -/
def parseDigits (l : List Char) : Option Nat :=
  match l with
  | [] => none
  | _ => parseDigitsAux 0 l

/-- `strconv.Atoi` body: optional sign, then a non-empty digit sequence. -/
def atoiChars : List Char → Option Int
  | [] => none
  | c :: cs =>
    if c = '-' then (parseDigits cs).map (fun n => -(n : Int))
    else if c = '+' then (parseDigits cs).map (fun n => (n : Int))
    else (parseDigits (c :: cs)).map (fun n => (n : Int))

/-- Model of Go `strconv.Atoi`: `none` is the error case. -/
def atoi (s : String) : Option Int := atoiChars s.data

/-- Model of Go `strconv.Itoa`. -/
def itoa (i : Int) : String :=
  if i < 0 then ⟨'-' :: toDigits (-i).toNat⟩ else ⟨toDigits i.toNat⟩

theorem digitVal_digitChar {n : Nat} (h : n < 10) : digitVal (digitChar n) = some n := by
  interval_cases n <;> rfl

theorem digitChar_ne_sign {n : Nat} (h : n < 10) : digitChar n ≠ '-' ∧ digitChar n ≠ '+' := by
  interval_cases n <;> exact ⟨by decide, by decide⟩

theorem toDigits_mem {n : Nat} : ∀ c ∈ toDigits n, ∃ k, k < 10 ∧ c = digitChar k := by
  induction n using Nat.strong_induction_on with
  | _ n ih =>
    intro c hc
    rw [toDigits] at hc
    by_cases h : n < 10
    · simp only [h, dif_pos] at hc
      simp only [List.mem_singleton] at hc
      exact ⟨n, h, hc⟩
    · simp only [h, dif_neg, not_false_iff, List.mem_append, List.mem_singleton] at hc
      rcases hc with hc | hc
      · exact ih (n / 10) (Nat.div_lt_self (by omega) (by omega)) c hc
      · exact ⟨n % 10, Nat.mod_lt _ (by omega), hc⟩

theorem toDigits_ne_nil {n : Nat} : toDigits n ≠ [] := by
  rw [toDigits]
  by_cases h : n < 10
  · simp [h]
  · simp [h]

theorem parseDigitsAux_append (acc : Nat) (xs ys : List Char) :
    parseDigitsAux acc (xs ++ ys) =
      (parseDigitsAux acc xs).bind (fun a => parseDigitsAux a ys) := by
  induction xs generalizing acc with
  | nil => rfl
  | cons c cs ih =>
    simp only [List.cons_append, parseDigitsAux]
    cases digitVal c with
    | none => rfl
    | some d => simp only [Option.some_bind]; exact ih _

theorem parseDigitsAux_toDigits (n : Nat) :
    ∀ acc, parseDigitsAux acc (toDigits n) =
      some (acc * 10 ^ (toDigits n).length + n) := by
  induction n using Nat.strong_induction_on with
  | _ n ih =>
    intro acc
    rw [toDigits]
    by_cases h : n < 10
    · simp only [h, dif_pos]
      simp [parseDigitsAux, digitVal_digitChar h]
      omega
    · simp only [h, dif_neg, not_false_iff]
      rw [parseDigitsAux_append, ih (n / 10) (Nat.div_lt_self (by omega) (by omega)) acc]
      have hm : n % 10 < 10 := by omega
      simp only [Option.some_bind, parseDigitsAux, digitVal_digitChar hm,
        List.length_append, List.length_singleton]
      rw [pow_succ, ← mul_assoc]
      congr 1
      have key : ∀ P, 10 * (P + n / 10) + n % 10 = P * 10 + n := by intro P; omega
      exact key (acc * 10 ^ (toDigits (n / 10)).length)

theorem parseDigits_toDigits (n : Nat) : parseDigits (toDigits n) = some n := by
  have hne := toDigits_ne_nil (n := n)
  rcases hl : toDigits n with _ | ⟨c, cs⟩
  · exact absurd hl hne
  · have := parseDigitsAux_toDigits n 0
    rw [hl] at this
    simpa [parseDigits] using this

theorem atoiChars_toDigits (n : Nat) : atoiChars (toDigits n) = some (n : Int) := by
  rcases hl : toDigits n with _ | ⟨c, cs⟩
  · exact absurd hl toDigits_ne_nil
  · have hc : c ∈ toDigits n := by rw [hl]; exact List.mem_cons_self _ _
    obtain ⟨k, hk, rfl⟩ := toDigits_mem _ hc
    have hsign := digitChar_ne_sign hk
    have := parseDigits_toDigits n
    rw [hl] at this
    simp [atoiChars, hsign.1, hsign.2, this]

theorem atoi_itoa (i : Int) : atoi (itoa i) = some i := by
  unfold atoi itoa
  by_cases h : i < 0
  · simp only [h, if_pos]
    show atoiChars ('-' :: toDigits (-i).toNat) = some i
    have hnn : (0 : Int) ≤ -i := by omega
    simp [atoiChars, parseDigits_toDigits, Int.toNat_of_nonneg hnn]
  · simp only [h, if_neg, not_false_iff]
    show atoiChars (toDigits i.toNat) = some i
    rw [atoiChars_toDigits]
    simp [Int.toNat_of_nonneg (by omega : (0:Int) ≤ i)]

/-! ### Data model

The Droplet managed record, from the `Droplet` CRD schema
(`apiextensions.k8s.io` manifest in the repository) and the fields of
`v1alpha1.Droplet` that `droplet.go` reads and writes.  The
`crossplane.io/external-name` annotation accessed through
`meta.GetExternalName` / `meta.SetExternalName` is the `externalName`
field; Go `nil`-able errors are `Option String`. -/

/-- The fields of a `godo.Droplet` the controller consumes: the
provider-assigned numeric ID (a Go `int`), the lifecycle status string, the
creation timestamp, and the observed provider-defaulted fields used by late
initialization. -/
structure GodoDroplet where
  ID : Int
  Status : String
  Created : String
  VPCUUID : String
  Tags : List String
  deriving DecidableEq, Repr

/-- `v1alpha1.DropletParameters` (the CRD's `spec.forProvider`). -/
structure DropletParameters where
  Image : String
  Region : String
  Size : String
  Backups : Option Bool
  IPv6 : Option Bool
  Monitoring : Option Bool
  PrivateNetworking : Option Bool
  SSHKeys : List String
  Tags : List String
  Volumes : List String
  VPCUUID : Option String
  WithDropletAgent : Option Bool
  deriving DecidableEq, Repr

/-- `v1alpha1.DropletObservation` (the CRD's `status.atProvider`). -/
structure DropletObservation where
  CreationTimestamp : String
  ID : Int
  Status : String
  deriving DecidableEq, Repr

/-- A status condition entry (type, status, reason); the
last-transition-time bookkeeping of crossplane-runtime is not modelled. -/
structure Condition where
  condType : String
  status : String
  reason : String
  deriving DecidableEq, Repr

/-- `xpv1.Creating()`: Ready condition, False, reason Creating. -/
def conditionCreating : Condition := ⟨"Ready", "False", "Creating"⟩

/-- `xpv1.Available()`: Ready condition, True, reason Available. -/
def conditionAvailable : Condition := ⟨"Ready", "True", "Available"⟩

/-- `xpv1.Deleting()`: Ready condition, False, reason Deleting. -/
def conditionDeleting : Condition := ⟨"Ready", "False", "Deleting"⟩

/-- crossplane-runtime `SetConditions` for one condition: replace the
existing condition of the same type in place, else append. -/
def setCondition (conds : List Condition) (c : Condition) : List Condition :=
  if conds.any (fun d => d.condType = c.condType) then
    conds.map (fun d => if d.condType = c.condType then c else d)
  else conds ++ [c]

/-- The `v1alpha1.Droplet` managed record: object name, the
`crossplane.io/external-name` annotation, spec and status. -/
structure Droplet where
  name : String
  externalName : String
  forProvider : DropletParameters
  atProvider : DropletObservation
  conditions : List Condition
  deriving DecidableEq, Repr

/-- The `resource.Managed` argument of the four operations: either a
Droplet record or a managed resource of some other kind (the failed
type-assertion branch). -/
inductive Managed where
  | droplet (cr : Droplet)
  | other
  deriving DecidableEq, Repr

/-- External name of the record carried by a `Managed` value. -/
def Managed.extName : Managed → String
  | .droplet cr => cr.externalName
  | .other => ""

/-- Conditions of the record carried by a `Managed` value. -/
def Managed.conds : Managed → List Condition
  | .droplet cr => cr.conditions
  | .other => []

/-- `managed.ExternalObservation` (the fields `droplet.go` sets). -/
structure ExternalObservation where
  ResourceExists : Bool
  ResourceUpToDate : Bool
  deriving DecidableEq, Repr

/-- `managed.ExternalCreation` (the field `droplet.go` sets). -/
structure ExternalCreation where
  ExternalNameAssigned : Bool
  deriving DecidableEq, Repr

/-- `managed.ExternalUpdate` (no field of it is used here). -/
structure ExternalUpdate where
  deriving DecidableEq, Repr

/-! ### Provider RPC boundary and error plumbing -/

/-- Result of `c.Droplets.Get`: the droplet with a nil error, a not-found
error (404 response), or some other non-nil error. -/
inductive GetResult where
  | ok (d : GodoDroplet)
  | notFound
  | otherErr (msg : String)
  deriving DecidableEq, Repr

/-- Result of `c.Droplets.Create`: a droplet with a nil error, a nil
droplet with a nil error, or a non-nil error. -/
inductive CreateResult where
  | ok (d : GodoDroplet)
  | nilNoErr
  | err (msg : String)
  deriving DecidableEq, Repr

/-- Result of `c.Droplets.Delete`: nil error, a not-found error (404
response), or some other non-nil error. -/
inductive DeleteResult where
  | ok
  | notFound
  | otherErr (msg : String)
  deriving DecidableEq, Repr

/-- `github.com/pkg/errors.Wrap`: returns nil when the wrapped error is
nil, otherwise prefixes the message. -/
def wrap (e : Option String) (msg : String) : Option String :=
  e.map (fun s => msg ++ ": " ++ s)

/-- Modelled from the spec: `do.IgnoreNotFound` lives in `pkg/clients`,
which is not part of the reviewed source; per the spec a not-found result
from the provider is not an error for Observe or Delete, so it maps a
not-found error to nil and passes any other error through.  This is the
Get-side instance. -/
def ignoreNotFoundGet : GetResult → Option String
  | .ok _ => none
  | .notFound => none
  | .otherErr m => some m

/-- Modelled from the spec: the Delete-side instance of
`do.IgnoreNotFound` (see `ignoreNotFoundGet`). -/
def ignoreNotFoundDelete : DeleteResult → Option String
  | .ok => none
  | .notFound => none
  | .otherErr m => some m

/-- Modelled from the spec: the constant `v1alpha1.StatusNew` is declared
in `apis/compute/v1alpha1`, which is not part of the reviewed source; the
spec maps lifecycle status `new` to the Creating condition and the CRD
lists the droplet status values new, active, off, archive. -/
def StatusNew : String := "new"

/-- Modelled from the spec: the constant `v1alpha1.StatusActive` (see
`StatusNew`); the spec maps lifecycle status `active` to Available. -/
def StatusActive : String := "active"

/-- Modelled from the spec: `docompute.LateInitializeSpec`
(`pkg/clients/compute`, not part of the reviewed source) merges
provider-returned values into desired fields the record never set ("late
initialization"): it only fills fields absent in the record and never
overwrites a field the user explicitly set.  Restricted to the observed
fields carried by the `GodoDroplet` model (VPC reference and tag set). -/
def LateInitializeSpec (p : DropletParameters) (d : GodoDroplet) : DropletParameters :=
  let p1 :=
    match p.VPCUUID with
    | none => if d.VPCUUID = "" then p else { p with VPCUUID := some d.VPCUUID }
    | some _ => p
  match p1.Tags with
  | [] => { p1 with Tags := d.Tags }
  | _ => p1

/-! ### Error message constants of `droplet.go` -/

def errNotDroplet : String := "managed resource is not a Droplet resource"

def errGetDroplet : String := "cannot get droplet"

def errDropletCreateFailed : String := "creation of Droplet resource has failed"

def errDropletDeleteFailed : String := "deletion of Droplet resource has failed"

def errDropletUpdate : String := "cannot update managed Droplet resource"

/-! ### The four lifecycle operations of `dropletExternal`

Each Go method mutates the passed record in place and returns a result
with an error; here each returns the record it leaves behind, the result,
the error, and a trace of the outbound calls it made (which provider get
was issued, whether `kube.Update` was called). -/

/-- Outcome of `dropletExternal.Observe`: the record as left by the call,
the returned `managed.ExternalObservation` and error, the argument of the
`Droplets.Get` call when one was made, and whether `kube.Update` ran. -/
structure ObserveResult where
  mg : Managed
  obs : ExternalObservation
  err : Option String
  getCall : Option Int
  kubeUpdateCalled : Bool
  deriving DecidableEq, Repr

/-- Outcome of `dropletExternal.Create`. -/
structure CreateOutcome where
  mg : Managed
  creation : ExternalCreation
  err : Option String
  deriving DecidableEq, Repr

/-- Outcome of `dropletExternal.Update`. -/
structure UpdateOutcome where
  mg : Managed
  upd : ExternalUpdate
  err : Option String
  deriving DecidableEq, Repr

/-- Outcome of `dropletExternal.Delete`. -/
structure DeleteOutcome where
  mg : Managed
  err : Option String
  deriving DecidableEq, Repr

namespace dropletExternal

/-- Tail of `dropletExternal.Observe` after a successful get and
late-initialization stage: copy ID, creation timestamp and status into
`status.atProvider`, map the lifecycle status through the condition
switch, and report exists and up-to-date. -/
def observeTail (cr : Droplet) (observed : GodoDroplet) (externalID : Int)
    (updated : Bool) : ObserveResult :=
  let cr1 := { cr with atProvider := ⟨observed.Created, observed.ID, observed.Status⟩ }
  let cr2 :=
    if cr1.atProvider.Status = StatusNew then
      { cr1 with conditions := setCondition cr1.conditions conditionCreating }
    else if cr1.atProvider.Status = StatusActive then
      { cr1 with conditions := setCondition cr1.conditions conditionAvailable }
    else cr1
  ⟨.droplet cr2, ⟨true, true⟩, none, some externalID, updated⟩

/-- `dropletExternal.Observe`, parameterized by the provider get, the
declarative-store update and the late-initialization merge. -/
def Observe (get : Int → GetResult) (kubeUpdate : Droplet → Option String)
    (lateInit : DropletParameters → GodoDroplet → DropletParameters) :
    Managed → ObserveResult
  | .other => ⟨.other, ⟨false, false⟩, some errNotDroplet, none, false⟩
  | .droplet cr =>
    if cr.externalName = "" then
      ⟨.droplet cr, ⟨false, false⟩, none, none, false⟩
    else
      let externalID : Int := (atoi cr.externalName).getD 0
      match get externalID with
      | .notFound =>
        ⟨.droplet cr, ⟨false, false⟩, wrap (ignoreNotFoundGet .notFound) errGetDroplet,
          some externalID, false⟩
      | .otherErr m =>
        ⟨.droplet cr, ⟨false, false⟩, wrap (ignoreNotFoundGet (.otherErr m)) errGetDroplet,
          some externalID, false⟩
      | .ok observed =>
        let currentSpec := cr.forProvider
        let cr1 := { cr with forProvider := lateInit cr.forProvider observed }
        if currentSpec ≠ cr1.forProvider then
          match kubeUpdate cr1 with
          | some e =>
            ⟨.droplet cr1, ⟨false, false⟩, wrap (some e) errDropletUpdate,
              some externalID, true⟩
          | none => observeTail cr1 observed externalID true
        else observeTail cr1 observed externalID false

/-- `dropletExternal.Create`, parameterized by the provider create; the
create-request built by `docompute.GenerateDroplet` is summarized by the
submitted name (no claim depends on the other request fields). -/
def Create (providerCreate : String → CreateResult) : Managed → CreateOutcome
  | .other => ⟨.other, ⟨false⟩, some errNotDroplet⟩
  | .droplet cr =>
    let cr1 := { cr with conditions := setCondition cr.conditions conditionCreating }
    let name := if cr1.externalName = "" then cr1.name else cr1.externalName
    match providerCreate name with
    | .err m => ⟨.droplet cr1, ⟨false⟩, wrap (some m) errDropletCreateFailed⟩
    | .nilNoErr => ⟨.droplet cr1, ⟨false⟩, wrap none errDropletCreateFailed⟩
    | .ok droplet =>
      let cr2 :=
        if cr1.externalName = "" then { cr1 with externalName := itoa droplet.ID }
        else cr1
      ⟨.droplet cr2, ⟨true⟩, none⟩

/-- `dropletExternal.Update`: returns an empty update and a nil error for
any managed resource, touching nothing (the method body reads none of its
arguments). -/
def Update : Managed → UpdateOutcome := fun mg => ⟨mg, ⟨⟩, none⟩

/-- `dropletExternal.Delete`, parameterized by the provider delete, which
is invoked with the numeric ID from `status.atProvider`. -/
def Delete (providerDelete : Int → DeleteResult) : Managed → DeleteOutcome
  | .other => ⟨.other, some errNotDroplet⟩
  | .droplet cr =>
    let cr1 := { cr with conditions := setCondition cr.conditions conditionDeleting }
    ⟨.droplet cr1,
      wrap (ignoreNotFoundDelete (providerDelete cr1.atProvider.ID)) errDropletDeleteFailed⟩

end dropletExternal

/-! ### Concrete fixtures (the end-to-end scenario of the spec) -/

/-- Desired parameters of the sample record. -/
def sampleParams : DropletParameters :=
  ⟨"ubuntu-20-04", "nyc1", "s-1vcpu-1gb", none, none, none, none, [], [], [], none, none⟩

/-- A fresh record before creation: empty external name. -/
def freshDroplet : Droplet :=
  ⟨"my-droplet", "", sampleParams, ⟨"", 0, ""⟩, []⟩

/-- A record after the identity hand-off: numeric external name. -/
def numberedDroplet : Droplet :=
  ⟨"my-droplet", "123456", sampleParams, ⟨"2020-01-01T00:00:00Z", 123456, "active"⟩, []⟩

/-- A record whose external name still holds the user-chosen name. -/
def namedDroplet : Droplet :=
  ⟨"my-droplet", "my-droplet", sampleParams, ⟨"", 0, ""⟩, []⟩

/-- A provider droplet as returned by create or get. -/
def sampleGodo : GodoDroplet :=
  ⟨123456, "active", "2020-01-01T00:00:00Z", "", []⟩

/-- A provider droplet carrying a VPC reference the record does not set,
so the late-initialization merge changes the record. -/
def vpcGodo : GodoDroplet :=
  ⟨123456, "active", "2020-01-01T00:00:00Z", "vpc-1", []⟩

/-! ### Helper lemmas -/

theorem atoi_empty : atoi "" = none := rfl

theorem externalName_ne_empty_of_numeric {s : String} (h : (atoi s).isSome) : s ≠ "" := by
  intro he
  rw [he, atoi_empty] at h
  simp [Option.isSome] at h

theorem Observe_shape_notFound (g : Int → GetResult) (k : Droplet → Option String)
    (li : DropletParameters → GodoDroplet → DropletParameters) (cr : Droplet)
    (hne : cr.externalName ≠ "")
    (hg : g ((atoi cr.externalName).getD 0) = .notFound) :
    dropletExternal.Observe g k li (.droplet cr) =
      ⟨.droplet cr, ⟨false, false⟩, none, some ((atoi cr.externalName).getD 0),
        false⟩ := by
  simp only [dropletExternal.Observe]
  rw [if_neg hne, hg]
  rfl

theorem Observe_shape_otherErr (g : Int → GetResult) (k : Droplet → Option String)
    (li : DropletParameters → GodoDroplet → DropletParameters) (cr : Droplet)
    (m : String) (hne : cr.externalName ≠ "")
    (hg : g ((atoi cr.externalName).getD 0) = .otherErr m) :
    dropletExternal.Observe g k li (.droplet cr) =
      ⟨.droplet cr, ⟨false, false⟩, some (errGetDroplet ++ ": " ++ m),
        some ((atoi cr.externalName).getD 0), false⟩ := by
  simp only [dropletExternal.Observe]
  rw [if_neg hne, hg]
  rfl

theorem Observe_shape_ok_unchanged (g : Int → GetResult) (k : Droplet → Option String)
    (li : DropletParameters → GodoDroplet → DropletParameters) (cr : Droplet)
    (d : GodoDroplet) (hne : cr.externalName ≠ "")
    (hg : g ((atoi cr.externalName).getD 0) = .ok d)
    (hchange : cr.forProvider = li cr.forProvider d) :
    dropletExternal.Observe g k li (.droplet cr) =
      dropletExternal.observeTail { cr with forProvider := li cr.forProvider d } d
        ((atoi cr.externalName).getD 0) false := by
  simp only [dropletExternal.Observe]
  rw [if_neg hne, hg]
  dsimp only
  rw [if_neg (by simp [hchange.symm])]

theorem Observe_shape_ok_changed_fail (g : Int → GetResult)
    (k : Droplet → Option String)
    (li : DropletParameters → GodoDroplet → DropletParameters) (cr : Droplet)
    (d : GodoDroplet) (e : String) (hne : cr.externalName ≠ "")
    (hg : g ((atoi cr.externalName).getD 0) = .ok d)
    (hchange : ¬cr.forProvider = li cr.forProvider d)
    (hk : k { cr with forProvider := li cr.forProvider d } = some e) :
    dropletExternal.Observe g k li (.droplet cr) =
      ⟨.droplet { cr with forProvider := li cr.forProvider d }, ⟨false, false⟩,
        some (errDropletUpdate ++ ": " ++ e),
        some ((atoi cr.externalName).getD 0), true⟩ := by
  simp only [dropletExternal.Observe]
  rw [if_neg hne, hg]
  dsimp only
  rw [if_pos hchange, hk]
  rfl

theorem Observe_shape_ok_changed_success (g : Int → GetResult)
    (k : Droplet → Option String)
    (li : DropletParameters → GodoDroplet → DropletParameters) (cr : Droplet)
    (d : GodoDroplet) (hne : cr.externalName ≠ "")
    (hg : g ((atoi cr.externalName).getD 0) = .ok d)
    (hchange : ¬cr.forProvider = li cr.forProvider d)
    (hk : k { cr with forProvider := li cr.forProvider d } = none) :
    dropletExternal.Observe g k li (.droplet cr) =
      dropletExternal.observeTail { cr with forProvider := li cr.forProvider d } d
        ((atoi cr.externalName).getD 0) true := by
  simp only [dropletExternal.Observe]
  rw [if_neg hne, hg]
  dsimp only
  rw [if_pos hchange, hk]

theorem Observe_shape_empty (g : Int → GetResult) (k : Droplet → Option String)
    (li : DropletParameters → GodoDroplet → DropletParameters) (cr : Droplet)
    (h : cr.externalName = "") :
    dropletExternal.Observe g k li (.droplet cr) =
      ⟨.droplet cr, ⟨false, false⟩, none, none, false⟩ := by
  simp [dropletExternal.Observe, h]

theorem observeTail_eq (cr : Droplet) (d : GodoDroplet) (i : Int) (u : Bool) :
    dropletExternal.observeTail cr d i u =
      ⟨.droplet { cr with
          atProvider := ⟨d.Created, d.ID, d.Status⟩,
          conditions :=
            if d.Status = StatusNew then setCondition cr.conditions conditionCreating
            else if d.Status = StatusActive then
              setCondition cr.conditions conditionAvailable
            else cr.conditions },
        ⟨true, true⟩, none, some i, u⟩ := by
  unfold dropletExternal.observeTail
  dsimp only
  split_ifs <;> rfl

theorem observe_extName (g : Int → GetResult) (k : Droplet → Option String)
    (li : DropletParameters → GodoDroplet → DropletParameters) (cr : Droplet) :
    Managed.extName (dropletExternal.Observe g k li (.droplet cr)).mg =
      cr.externalName := by
  by_cases he : cr.externalName = ""
  · rw [Observe_shape_empty g k li cr he]
    rfl
  · rcases hg : g ((atoi cr.externalName).getD 0) with d | _ | m
    · by_cases hchange : cr.forProvider = li cr.forProvider d
      · rw [Observe_shape_ok_unchanged g k li cr d he hg hchange, observeTail_eq]
        rfl
      · rcases hk : k { cr with forProvider := li cr.forProvider d } with _ | e
        · rw [Observe_shape_ok_changed_success g k li cr d he hg hchange hk,
            observeTail_eq]
          rfl
        · rw [Observe_shape_ok_changed_fail g k li cr d e he hg hchange hk]
          rfl
    · rw [Observe_shape_notFound g k li cr he hg]
      rfl
    · rw [Observe_shape_otherErr g k li cr m he hg]
      rfl

theorem create_extName_of_ne (pc : String → CreateResult) (cr : Droplet)
    (hne : cr.externalName ≠ "") :
    Managed.extName (dropletExternal.Create pc (.droplet cr)).mg =
      cr.externalName := by
  rcases hc : pc cr.externalName with d | _ | m <;>
    simp [dropletExternal.Create, hne, hc, Managed.extName]

/-! ### Claims -/

/-- C9: `Update` returns success (a nil error) with an empty result and
performs no side effects for every input record of any kind: the record
comes back unchanged (so no condition changes) and the operation consumes
no provider oracle, so no provider API call is possible. -/
theorem update_is_noop (mg : Managed) :
    dropletExternal.Update mg = ⟨mg, ⟨⟩, none⟩ := rfl

/-- C4: `Observe` on a Droplet record whose external name is empty returns
exists = false with a nil error, issues no provider get call, and leaves
the record unchanged. -/
theorem observe_empty_identity (get : Int → GetResult)
    (kubeUpdate : Droplet → Option String)
    (lateInit : DropletParameters → GodoDroplet → DropletParameters)
    (cr : Droplet) (h : cr.externalName = "") :
    dropletExternal.Observe get kubeUpdate lateInit (.droplet cr) =
      ⟨.droplet cr, ⟨false, false⟩, none, none, false⟩ := by
  simp [dropletExternal.Observe, h]

theorem observe_empty_identity_witness :
    freshDroplet.externalName = "" ∧
    dropletExternal.Observe (fun _ => .notFound) (fun _ => none) LateInitializeSpec
        (.droplet freshDroplet) =
      ⟨.droplet freshDroplet, ⟨false, false⟩, none, none, false⟩ :=
  ⟨rfl, observe_empty_identity (fun _ => .notFound) (fun _ => none) LateInitializeSpec
    freshDroplet rfl⟩

/-- C2 (code evidence): when the provider create returns a nil droplet
together with a nil error, `Create` returns a nil error — because
`pkg/errors.Wrap` of a nil error is nil — and an empty creation result, so
the nil-result case is reported as a success rather than surfaced as a
CreateError, contradicting the claim and the intent of the
`err != nil || droplet == nil` guard. -/
theorem create_nil_result_nil_error :
    (dropletExternal.Create (fun _ => .nilNoErr) (.droplet freshDroplet)).err = none ∧
    (dropletExternal.Create (fun _ => .nilNoErr) (.droplet freshDroplet)).creation =
      ⟨false⟩ := by
  constructor <;> rfl

/-- C1: on a Create whose record enters with an empty external name, a
successful provider create leaves the provider-assigned numeric ID,
rendered in decimal, in the external name — parsing the stored string back
yields exactly that ID — and the result reports ExternalNameAssigned =
true with a nil error. -/
theorem create_identity_handoff (providerCreate : String → CreateResult)
    (cr : Droplet) (d : GodoDroplet) (hempty : cr.externalName = "")
    (hok : providerCreate cr.name = .ok d) :
    Managed.extName (dropletExternal.Create providerCreate (.droplet cr)).mg =
      itoa d.ID ∧
    atoi (Managed.extName (dropletExternal.Create providerCreate (.droplet cr)).mg) =
      some d.ID ∧
    (dropletExternal.Create providerCreate (.droplet cr)).creation = ⟨true⟩ ∧
    (dropletExternal.Create providerCreate (.droplet cr)).err = none := by
  simp [dropletExternal.Create, hempty, hok, Managed.extName, atoi_itoa]

theorem create_identity_handoff_witness :
    freshDroplet.externalName = "" ∧
    (Managed.extName (dropletExternal.Create (fun _ => .ok sampleGodo)
        (.droplet freshDroplet)).mg = itoa sampleGodo.ID ∧
      atoi (Managed.extName (dropletExternal.Create (fun _ => .ok sampleGodo)
        (.droplet freshDroplet)).mg) = some sampleGodo.ID ∧
      (dropletExternal.Create (fun _ => .ok sampleGodo)
        (.droplet freshDroplet)).creation = ⟨true⟩ ∧
      (dropletExternal.Create (fun _ => .ok sampleGodo)
        (.droplet freshDroplet)).err = none) :=
  ⟨rfl, create_identity_handoff (fun _ => .ok sampleGodo) freshDroplet sampleGodo rfl rfl⟩

/-- C10: on every successful Create the result reports
ExternalNameAssigned = true unconditionally — also when the record's
external name was already non-empty, in which case the external name is
left unchanged — so the flag does not indicate that an assignment actually
occurred during the call. -/
theorem create_assigned_flag_unconditional (providerCreate : String → CreateResult)
    (cr : Droplet) (d : GodoDroplet)
    (hok : providerCreate (if cr.externalName = "" then cr.name else cr.externalName) =
      .ok d) :
    (dropletExternal.Create providerCreate (.droplet cr)).creation = ⟨true⟩ ∧
    (cr.externalName ≠ "" →
      Managed.extName (dropletExternal.Create providerCreate (.droplet cr)).mg =
        cr.externalName) := by
  by_cases h : cr.externalName = "" <;>
    simp_all [dropletExternal.Create, Managed.extName]

/-- C3: not-found handling symmetry: with a non-empty external name, a
not-found result from the provider get makes Observe report exists = false
with a nil error; a not-found result from the provider delete makes Delete
succeed with a nil error. -/
theorem not_found_symmetry (get : Int → GetResult)
    (kubeUpdate : Droplet → Option String)
    (lateInit : DropletParameters → GodoDroplet → DropletParameters)
    (providerDelete : Int → DeleteResult) (cr cr2 : Droplet)
    (hne : cr.externalName ≠ "")
    (hget : get ((atoi cr.externalName).getD 0) = .notFound)
    (hdel : providerDelete cr2.atProvider.ID = .notFound) :
    ((dropletExternal.Observe get kubeUpdate lateInit
        (.droplet cr)).obs.ResourceExists = false ∧
      (dropletExternal.Observe get kubeUpdate lateInit (.droplet cr)).err = none) ∧
    (dropletExternal.Delete providerDelete (.droplet cr2)).err = none := by
  refine ⟨?_, ?_⟩
  · simp [dropletExternal.Observe, hne, hget, wrap, ignoreNotFoundGet]
  · simp [dropletExternal.Delete, hdel, wrap, ignoreNotFoundDelete]

theorem not_found_symmetry_witness :
    numberedDroplet.externalName ≠ "" ∧
    (fun _ : Int => GetResult.notFound) ((atoi numberedDroplet.externalName).getD 0) =
      .notFound ∧
    (fun _ : Int => DeleteResult.notFound) numberedDroplet.atProvider.ID = .notFound ∧
    (((dropletExternal.Observe (fun _ => .notFound) (fun _ => none) LateInitializeSpec
        (.droplet numberedDroplet)).obs.ResourceExists = false ∧
      (dropletExternal.Observe (fun _ => .notFound) (fun _ => none) LateInitializeSpec
        (.droplet numberedDroplet)).err = none) ∧
      (dropletExternal.Delete (fun _ => .notFound) (.droplet numberedDroplet)).err =
        none) :=
  ⟨by decide, rfl, rfl,
    not_found_symmetry (fun _ => .notFound) (fun _ => none) LateInitializeSpec
      (fun _ => .notFound) numberedDroplet numberedDroplet (by decide) rfl rfl⟩

/-- C7: for a successful provider get during Observe, if the
late-initialization merge changes the desired parameters (compared to the
pre-merge snapshot by structural equality) then the record is persisted
through `kube.Update`, and a persist failure makes Observe return an
UpdateError; if the merge changes nothing, no persist call is made and the
pass succeeds. -/
theorem late_init_persistence (get : Int → GetResult)
    (kubeUpdate : Droplet → Option String)
    (lateInit : DropletParameters → GodoDroplet → DropletParameters)
    (cr : Droplet) (d : GodoDroplet)
    (hne : cr.externalName ≠ "")
    (hok : get ((atoi cr.externalName).getD 0) = .ok d) :
    (lateInit cr.forProvider d ≠ cr.forProvider →
      (dropletExternal.Observe get kubeUpdate lateInit
          (.droplet cr)).kubeUpdateCalled = true ∧
      ∀ e, kubeUpdate { cr with forProvider := lateInit cr.forProvider d } = some e →
        (dropletExternal.Observe get kubeUpdate lateInit (.droplet cr)).err =
          some (errDropletUpdate ++ ": " ++ e)) ∧
    (lateInit cr.forProvider d = cr.forProvider →
      (dropletExternal.Observe get kubeUpdate lateInit
          (.droplet cr)).kubeUpdateCalled = false ∧
      (dropletExternal.Observe get kubeUpdate lateInit (.droplet cr)).err = none) := by
  by_cases hchange : cr.forProvider = lateInit cr.forProvider d
  · refine ⟨fun hne2 => absurd hchange.symm hne2, fun _ => ?_⟩
    rw [Observe_shape_ok_unchanged get kubeUpdate lateInit cr d hne hok hchange]
    exact ⟨rfl, rfl⟩
  · refine ⟨fun _ => ?_, fun heq => absurd heq.symm hchange⟩
    rcases hk : kubeUpdate { cr with forProvider := lateInit cr.forProvider d }
      with _ | e
    · rw [Observe_shape_ok_changed_success get kubeUpdate lateInit cr d hne hok
        hchange hk]
      exact ⟨rfl, fun e he => Option.noConfusion he⟩
    · rw [Observe_shape_ok_changed_fail get kubeUpdate lateInit cr d e hne hok
        hchange hk]
      refine ⟨rfl, fun e' he' => ?_⟩
      cases he'
      rfl

theorem late_init_persistence_witness :
    numberedDroplet.externalName ≠ "" ∧
    (fun _ : Int => GetResult.ok vpcGodo)
        ((atoi numberedDroplet.externalName).getD 0) = .ok vpcGodo ∧
    ((LateInitializeSpec numberedDroplet.forProvider vpcGodo ≠
        numberedDroplet.forProvider →
      (dropletExternal.Observe (fun _ => .ok vpcGodo) (fun _ => some "boom")
          LateInitializeSpec (.droplet numberedDroplet)).kubeUpdateCalled = true ∧
      ∀ e, (fun _ : Droplet => some "boom")
          { numberedDroplet with
            forProvider := LateInitializeSpec numberedDroplet.forProvider vpcGodo } =
          some e →
        (dropletExternal.Observe (fun _ => .ok vpcGodo) (fun _ => some "boom")
            LateInitializeSpec (.droplet numberedDroplet)).err =
          some (errDropletUpdate ++ ": " ++ e)) ∧
    (LateInitializeSpec numberedDroplet.forProvider vpcGodo =
        numberedDroplet.forProvider →
      (dropletExternal.Observe (fun _ => .ok vpcGodo) (fun _ => some "boom")
          LateInitializeSpec (.droplet numberedDroplet)).kubeUpdateCalled = false ∧
      (dropletExternal.Observe (fun _ => .ok vpcGodo) (fun _ => some "boom")
          LateInitializeSpec (.droplet numberedDroplet)).err = none)) :=
  ⟨by decide, rfl,
    late_init_persistence (fun _ => .ok vpcGodo) (fun _ => some "boom")
      LateInitializeSpec numberedDroplet vpcGodo (by decide) rfl⟩

theorem create_assigned_flag_unconditional_witness :
    (fun _ : String => CreateResult.ok sampleGodo)
        (if numberedDroplet.externalName = "" then numberedDroplet.name
         else numberedDroplet.externalName) = .ok sampleGodo ∧
    ((dropletExternal.Create (fun _ => .ok sampleGodo)
        (.droplet numberedDroplet)).creation = ⟨true⟩ ∧
      (numberedDroplet.externalName ≠ "" →
        Managed.extName (dropletExternal.Create (fun _ => .ok sampleGodo)
          (.droplet numberedDroplet)).mg = numberedDroplet.externalName)) :=
  ⟨rfl, create_assigned_flag_unconditional (fun _ => .ok sampleGodo) numberedDroplet
    sampleGodo rfl⟩

/-- C5: status-to-condition mapping on every successful Observe of an
existing instance: observed status `new` sets the Ready condition to
Creating, status `active` sets it to Available, and any other status
leaves the conditions exactly unchanged, so a previously-set Available
condition is never regressed by a later non-active observation. -/
theorem observe_status_condition (get : Int → GetResult)
    (kubeUpdate : Droplet → Option String)
    (lateInit : DropletParameters → GodoDroplet → DropletParameters)
    (cr : Droplet) (d : GodoDroplet)
    (hne : cr.externalName ≠ "")
    (hok : get ((atoi cr.externalName).getD 0) = .ok d)
    (hsucc : (dropletExternal.Observe get kubeUpdate lateInit (.droplet cr)).err =
      none) :
    (d.Status = StatusNew →
      Managed.conds (dropletExternal.Observe get kubeUpdate lateInit
          (.droplet cr)).mg = setCondition cr.conditions conditionCreating) ∧
    (d.Status = StatusActive →
      Managed.conds (dropletExternal.Observe get kubeUpdate lateInit
          (.droplet cr)).mg = setCondition cr.conditions conditionAvailable) ∧
    (d.Status ≠ StatusNew → d.Status ≠ StatusActive →
      Managed.conds (dropletExternal.Observe get kubeUpdate lateInit
          (.droplet cr)).mg = cr.conditions) := by
  by_cases hchange : cr.forProvider = lateInit cr.forProvider d
  · rw [Observe_shape_ok_unchanged get kubeUpdate lateInit cr d hne hok hchange,
      observeTail_eq]
    exact ⟨fun h1 => by simp [Managed.conds, h1, StatusNew, StatusActive],
      fun h2 => by simp [Managed.conds, h2, StatusNew, StatusActive],
      fun h1 h2 => by simp [Managed.conds, h1, h2]⟩
  · rcases hk : kubeUpdate { cr with forProvider := lateInit cr.forProvider d }
      with _ | e
    · rw [Observe_shape_ok_changed_success get kubeUpdate lateInit cr d hne hok
        hchange hk, observeTail_eq]
      exact ⟨fun h1 => by simp [Managed.conds, h1, StatusNew, StatusActive],
        fun h2 => by simp [Managed.conds, h2, StatusNew, StatusActive],
        fun h1 h2 => by simp [Managed.conds, h1, h2]⟩
    · rw [Observe_shape_ok_changed_fail get kubeUpdate lateInit cr d e hne hok
        hchange hk] at hsucc
      exact absurd hsucc (by simp)

theorem observe_status_condition_witness :
    numberedDroplet.externalName ≠ "" ∧
    (fun _ : Int => GetResult.ok sampleGodo)
        ((atoi numberedDroplet.externalName).getD 0) = .ok sampleGodo ∧
    (dropletExternal.Observe (fun _ => .ok sampleGodo) (fun _ => none)
        LateInitializeSpec (.droplet numberedDroplet)).err = none ∧
    ((sampleGodo.Status = StatusNew →
      Managed.conds (dropletExternal.Observe (fun _ => .ok sampleGodo) (fun _ => none)
          LateInitializeSpec (.droplet numberedDroplet)).mg =
        setCondition numberedDroplet.conditions conditionCreating) ∧
    (sampleGodo.Status = StatusActive →
      Managed.conds (dropletExternal.Observe (fun _ => .ok sampleGodo) (fun _ => none)
          LateInitializeSpec (.droplet numberedDroplet)).mg =
        setCondition numberedDroplet.conditions conditionAvailable) ∧
    (sampleGodo.Status ≠ StatusNew → sampleGodo.Status ≠ StatusActive →
      Managed.conds (dropletExternal.Observe (fun _ => .ok sampleGodo) (fun _ => none)
          LateInitializeSpec (.droplet numberedDroplet)).mg =
        numberedDroplet.conditions)) :=
  ⟨by decide, rfl, by decide,
    observe_status_condition (fun _ => .ok sampleGodo) (fun _ => none)
      LateInitializeSpec numberedDroplet sampleGodo (by decide) rfl (by decide)⟩

/-- C6: monotonic identity: for a record whose external name parses as a
numeric ID, Observe, Update and Delete leave the external name unchanged,
and Create leaves it unchanged as well (its only write to the external
name is guarded on the name being empty), so it still parses as numeric
after any of the four operations. -/
theorem monotonic_identity (get : Int → GetResult)
    (kubeUpdate : Droplet → Option String)
    (lateInit : DropletParameters → GodoDroplet → DropletParameters)
    (providerCreate : String → CreateResult) (providerDelete : Int → DeleteResult)
    (cr : Droplet) (h : (atoi cr.externalName).isSome) :
    Managed.extName (dropletExternal.Observe get kubeUpdate lateInit
        (.droplet cr)).mg = cr.externalName ∧
    Managed.extName (dropletExternal.Update (.droplet cr)).mg = cr.externalName ∧
    Managed.extName (dropletExternal.Delete providerDelete (.droplet cr)).mg =
      cr.externalName ∧
    Managed.extName (dropletExternal.Create providerCreate (.droplet cr)).mg =
      cr.externalName ∧
    (atoi (Managed.extName (dropletExternal.Create providerCreate
        (.droplet cr)).mg)).isSome := by
  have hne := externalName_ne_empty_of_numeric h
  refine ⟨observe_extName get kubeUpdate lateInit cr, rfl, rfl, ?_, ?_⟩
  · exact create_extName_of_ne providerCreate cr hne
  · rw [create_extName_of_ne providerCreate cr hne]
    exact h

theorem monotonic_identity_witness :
    (atoi numberedDroplet.externalName).isSome ∧
    (Managed.extName (dropletExternal.Observe (fun _ => .notFound) (fun _ => none)
        LateInitializeSpec (.droplet numberedDroplet)).mg =
      numberedDroplet.externalName ∧
    Managed.extName (dropletExternal.Update (.droplet numberedDroplet)).mg =
      numberedDroplet.externalName ∧
    Managed.extName (dropletExternal.Delete (fun _ => .notFound)
        (.droplet numberedDroplet)).mg = numberedDroplet.externalName ∧
    Managed.extName (dropletExternal.Create (fun _ => .ok sampleGodo)
        (.droplet numberedDroplet)).mg = numberedDroplet.externalName ∧
    (atoi (Managed.extName (dropletExternal.Create (fun _ => .ok sampleGodo)
        (.droplet numberedDroplet)).mg)).isSome) :=
  ⟨by decide,
    monotonic_identity (fun _ => .notFound) (fun _ => none) LateInitializeSpec
      (fun _ => .ok sampleGodo) (fun _ => .notFound) numberedDroplet (by decide)⟩

/-- C8 (counterexample to the claim as stated): a record whose external
name is non-empty and non-numeric, a provider get that succeeds on the
sentinel ID 0, and a failing `kube.Update` after a late-initialization
merge make the Observe pass fail with an UpdateError although the provider
get itself never failed — so it is not true that such a pass fails only if
the get fails with a non-not-found error. -/
theorem sentinel_fallback_counterexample :
    atoi namedDroplet.externalName = none ∧
    (dropletExternal.Observe (fun _ => .ok vpcGodo) (fun _ => some "boom")
        LateInitializeSpec (.droplet namedDroplet)).getCall = some 0 ∧
    (fun _ : Int => GetResult.ok vpcGodo) 0 = .ok vpcGodo ∧
    (dropletExternal.Observe (fun _ => .ok vpcGodo) (fun _ => some "boom")
        LateInitializeSpec (.droplet namedDroplet)).err =
      some "cannot update managed Droplet resource: boom" := by
  refine ⟨by decide, by decide, rfl, by decide⟩

/-- C8 (amended): Observe on a record whose external name is non-empty but
does not parse as an integer does not fail on the parse: it substitutes
the sentinel ID zero and proceeds to the provider get with that ID, and
the pass then fails only if the provider get fails with a non-not-found
error or the subsequent late-initialization persist fails. -/
theorem sentinel_fallback (get : Int → GetResult) (kubeUpdate : Droplet → Option String)
    (lateInit : DropletParameters → GodoDroplet → DropletParameters) (cr : Droplet)
    (hne : cr.externalName ≠ "") (hparse : atoi cr.externalName = none) :
    (dropletExternal.Observe get kubeUpdate lateInit (.droplet cr)).getCall =
      some 0 ∧
    ((dropletExternal.Observe get kubeUpdate lateInit (.droplet cr)).err = none ∨
      (∃ m, get 0 = .otherErr m ∧
        (dropletExternal.Observe get kubeUpdate lateInit (.droplet cr)).err =
          some (errGetDroplet ++ ": " ++ m)) ∨
      (∃ e, (dropletExternal.Observe get kubeUpdate lateInit (.droplet cr)).err =
        some (errDropletUpdate ++ ": " ++ e))) := by
  have hid : (atoi cr.externalName).getD 0 = 0 := by rw [hparse]; rfl
  rcases hg : get ((atoi cr.externalName).getD 0) with d | _ | m
  · by_cases hchange : cr.forProvider = lateInit cr.forProvider d
    · rw [Observe_shape_ok_unchanged get kubeUpdate lateInit cr d hne hg hchange,
        observeTail_eq, hid]
      exact ⟨rfl, Or.inl rfl⟩
    · rcases hk : kubeUpdate { cr with forProvider := lateInit cr.forProvider d }
        with _ | e
      · rw [Observe_shape_ok_changed_success get kubeUpdate lateInit cr d hne hg
          hchange hk, observeTail_eq, hid]
        exact ⟨rfl, Or.inl rfl⟩
      · rw [Observe_shape_ok_changed_fail get kubeUpdate lateInit cr d e hne hg
          hchange hk, hid]
        exact ⟨rfl, Or.inr (Or.inr ⟨e, rfl⟩)⟩
  · rw [Observe_shape_notFound get kubeUpdate lateInit cr hne hg, hid]
    exact ⟨rfl, Or.inl rfl⟩
  · rw [Observe_shape_otherErr get kubeUpdate lateInit cr m hne hg, hid]
    refine ⟨rfl, Or.inr (Or.inl ⟨m, ?_, rfl⟩)⟩
    rw [← hid]
    exact hg

theorem sentinel_fallback_witness :
    namedDroplet.externalName ≠ "" ∧
    atoi namedDroplet.externalName = none ∧
    ((dropletExternal.Observe (fun _ => .notFound) (fun _ => none)
        LateInitializeSpec (.droplet namedDroplet)).getCall = some 0 ∧
    ((dropletExternal.Observe (fun _ => .notFound) (fun _ => none)
        LateInitializeSpec (.droplet namedDroplet)).err = none ∨
      (∃ m, (fun _ : Int => GetResult.notFound) 0 = .otherErr m ∧
        (dropletExternal.Observe (fun _ => .notFound) (fun _ => none)
            LateInitializeSpec (.droplet namedDroplet)).err =
          some (errGetDroplet ++ ": " ++ m)) ∨
      (∃ e, (dropletExternal.Observe (fun _ => .notFound) (fun _ => none)
          LateInitializeSpec (.droplet namedDroplet)).err =
        some (errDropletUpdate ++ ": " ++ e)))) :=
  ⟨by decide, by decide,
    sentinel_fallback (fun _ => .notFound) (fun _ => none) LateInitializeSpec
      namedDroplet (by decide) (by decide)⟩

end ProviderDO
